import Mathlib

/-!
Verification of the scrollable-viewport core (`src/widget/src/scrollable.rs`).

The Rust code computes over `f32`. We use a shallow embedding of `f32` as an
exact rational together with the special values `+inf`, `-inf` and `NaN`,
with the Rust/IEEE semantics of the operations the scrollable code uses
(`min`/`max` ignore a NaN argument; comparisons with NaN are false; `clamp`
passes NaN through; division produces NaN only for 0/0 and inf/inf).
Rounding is not modelled: arithmetic on finite values is exact.
-/

namespace Iced

/-- Shallow model of `f32`: an exact rational, or one of the IEEE special
values. Signed zero is collapsed to `0`. -/
inductive F32 where
  | num (q : ℚ)
  | posInf
  | negInf
  | nan
deriving DecidableEq, Repr

namespace F32

/-- `f32::is_nan`. -/
def isNan : F32 → Bool
  | .nan => true
  | _ => false

/-- IEEE negation. -/
def neg : F32 → F32
  | .num q => .num (-q)
  | .posInf => .negInf
  | .negInf => .posInf
  | .nan => .nan

/-- IEEE addition (exact on finite values). -/
def add : F32 → F32 → F32
  | .nan, _ => .nan
  | .num _, .nan => .nan
  | .posInf, .nan => .nan
  | .negInf, .nan => .nan
  | .num a, .num b => .num (a + b)
  | .num _, .posInf => .posInf
  | .num _, .negInf => .negInf
  | .posInf, .num _ => .posInf
  | .negInf, .num _ => .negInf
  | .posInf, .posInf => .posInf
  | .negInf, .negInf => .negInf
  | .posInf, .negInf => .nan
  | .negInf, .posInf => .nan

/-- IEEE subtraction. -/
def sub (a b : F32) : F32 := a.add b.neg

/-- IEEE multiplication (exact on finite values). -/
def mul : F32 → F32 → F32
  | .nan, _ => .nan
  | .num _, .nan => .nan
  | .posInf, .nan => .nan
  | .negInf, .nan => .nan
  | .num a, .num b => .num (a * b)
  | .num a, .posInf => if a = 0 then .nan else if 0 < a then .posInf else .negInf
  | .num a, .negInf => if a = 0 then .nan else if 0 < a then .negInf else .posInf
  | .posInf, .num b => if b = 0 then .nan else if 0 < b then .posInf else .negInf
  | .negInf, .num b => if b = 0 then .nan else if 0 < b then .negInf else .posInf
  | .posInf, .posInf => .posInf
  | .negInf, .negInf => .posInf
  | .posInf, .negInf => .negInf
  | .negInf, .posInf => .negInf

/-- IEEE division. A zero denominator with nonzero numerator gives a signed
infinity (the dividend's zero is treated as `+0`); `0/0` and `inf/inf` give
NaN. -/
def div : F32 → F32 → F32
  | .nan, _ => .nan
  | .num _, .nan => .nan
  | .posInf, .nan => .nan
  | .negInf, .nan => .nan
  | .num a, .num b =>
      if b = 0 then (if a = 0 then .nan else if 0 < a then .posInf else .negInf)
      else .num (a / b)
  | .num _, .posInf => .num 0
  | .num _, .negInf => .num 0
  | .posInf, .num b => if 0 ≤ b then .posInf else .negInf
  | .negInf, .num b => if 0 ≤ b then .negInf else .posInf
  | .posInf, .posInf => .nan
  | .posInf, .negInf => .nan
  | .negInf, .posInf => .nan
  | .negInf, .negInf => .nan

/-- IEEE `<=`: false whenever either operand is NaN. -/
def le : F32 → F32 → Bool
  | .nan, _ => false
  | _, .nan => false
  | .num a, .num b => decide (a ≤ b)
  | .negInf, _ => true
  | _, .posInf => true
  | .posInf, .num _ => false
  | .posInf, .negInf => false
  | .num _, .negInf => false

/-- IEEE `<`: false whenever either operand is NaN. -/
def lt (a b : F32) : Bool := a.le b && !(b.le a)

/-- Rust `f32::min`: if one argument is NaN the other is returned. -/
def min (a b : F32) : F32 :=
  if a.isNan then b else if b.isNan then a else if a.le b then a else b

/-- Rust `f32::max`: if one argument is NaN the other is returned. -/
def max (a b : F32) : F32 :=
  if a.isNan then b else if b.isNan then a else if a.le b then b else a

/-- Rust `f32::abs`. -/
def abs : F32 → F32
  | .num q => .num |q|
  | .posInf => .posInf
  | .negInf => .posInf
  | .nan => .nan

/-- Rust `f32::clamp` (the callers always supply ordered, non-NaN bounds;
a NaN value is passed through). -/
def clamp (x lo hi : F32) : F32 :=
  if x.lt lo then lo else if hi.lt x then hi else x

/-- `f32::EPSILON` = 2⁻²³. -/
def EPSILON : F32 := .num (1 / 8388608)

@[simp] theorem add_num (a b : ℚ) : add (.num a) (.num b) = .num (a + b) := rfl

@[simp] theorem neg_num (a : ℚ) : neg (.num a) = .num (-a) := rfl

@[simp] theorem sub_num (a b : ℚ) : sub (.num a) (.num b) = .num (a - b) := by
  simp [sub, neg, add, sub_eq_add_neg]

@[simp] theorem mul_num (a b : ℚ) : mul (.num a) (.num b) = .num (a * b) := rfl

@[simp] theorem le_num (a b : ℚ) : le (.num a) (.num b) = decide (a ≤ b) := rfl

@[simp] theorem isNan_num (a : ℚ) : isNan (.num a) = false := rfl

@[simp] theorem min_num (a b : ℚ) : min (.num a) (.num b) = .num (Min.min a b) := by
  simp only [min, isNan, le, Bool.false_eq_true, if_false, decide_eq_true_eq]
  split
  · simp [min_eq_left, *]
  · have h : b ≤ a := le_of_not_le (by assumption)
    simp [min_eq_right h]

@[simp] theorem max_num (a b : ℚ) : max (.num a) (.num b) = .num (Max.max a b) := by
  simp only [max, isNan, le, Bool.false_eq_true, if_false, decide_eq_true_eq]
  split
  · simp [max_eq_right, *]
  · have h : b ≤ a := le_of_not_le (by assumption)
    simp [max_eq_left h]

@[simp] theorem lt_num (a b : ℚ) : lt (.num a) (.num b) = decide (a < b) := by
  simp only [lt, le_num]
  rcases lt_trichotomy a b with h | h | h
  · simp [h.le, h.not_le, h]
  · simp [h]
  · simp [h.le, h.not_le, h.not_lt]

@[simp] theorem abs_num (a : ℚ) : abs (.num a) = .num |a| := rfl

theorem div_num (a b : ℚ) (h : b ≠ 0) : div (.num a) (.num b) = .num (a / b) := by
  simp [div, h]

theorem clamp_num (x lo hi : ℚ) (h : lo ≤ hi) :
    clamp (.num x) (.num lo) (.num hi) = .num (Min.min (Max.max x lo) hi) := by
  simp only [clamp, lt_num]
  rcases lt_or_le x lo with h1 | h1
  · rw [if_pos (by simpa using h1), max_eq_right h1.le, min_eq_left h]
  · rw [if_neg (by simpa using h1.not_lt), max_eq_left h1]
    rcases lt_or_le hi x with h2 | h2
    · rw [if_pos (by simpa using h2), min_eq_right h2.le]
    · rw [if_neg (by simpa using h2.not_lt), min_eq_left h2]

theorem le_true_of_lt_true {a b : F32} (h : lt a b = true) : le a b = true := by
  simp only [lt, Bool.and_eq_true] at h
  exact h.1

theorem lt_false_of_le_true {a b : F32} (h : le a b = true) : lt b a = false := by
  simp [lt, h]

end F32

/-- Modelled from the spec: the geometry utilities (`Point`) are external
collaborators, "assumed provided by the host framework". -/
structure Point where
  x : F32
  y : F32
deriving DecidableEq, Repr

/-- Modelled from the spec: the geometry utilities (`Vector`) are external
collaborators, "assumed provided by the host framework". -/
structure Vector where
  x : F32
  y : F32
deriving DecidableEq, Repr

/-- Modelled from the spec: the geometry utilities (`Rectangle`) are external
collaborators, "assumed provided by the host framework". -/
structure Rectangle where
  x : F32
  y : F32
  width : F32
  height : F32
deriving DecidableEq, Repr

/-- Modelled from the spec: the rectangle containment test is an external
geometry utility; the standard half-open box test is used. -/
def Rectangle.contains (r : Rectangle) (p : Point) : Bool :=
  F32.le r.x p.x && F32.lt p.x (F32.add r.x r.width) &&
  F32.le r.y p.y && F32.lt p.y (F32.add r.y r.height)

/-- Modelled from the spec: the host framework's mouse cursor, either at a
known position or unavailable. -/
inductive Cursor where
  | Available (position : Point)
  | Unavailable
deriving DecidableEq, Repr

/-- Modelled from the spec: `mouse::Cursor::position`. -/
def Cursor.position : Cursor → Option Point
  | .Available p => some p
  | .Unavailable => none

/-- Modelled from the spec: `mouse::Cursor::position_over` returns the cursor
position when it lies inside the given bounds. -/
def Cursor.position_over (c : Cursor) (bounds : Rectangle) : Option Point :=
  match c.position with
  | some p => if bounds.contains p then some p else none
  | none => none

/-- Modelled from the spec: keyboard modifier snapshot (`keyboard::Modifiers`);
the scrollable only reads the shift flag, the other flags are carried along. -/
structure Modifiers where
  shift : Bool
  control : Bool
  alt : Bool
  command : Bool
deriving DecidableEq, Repr

/-- `keyboard::Modifiers::default()`: no modifier held. -/
def Modifiers.default : Modifiers := ⟨false, false, false, false⟩

/-- `Alignment` of the scrollable's content relative to its viewport. -/
inductive Alignment where
  | Start
  | End
deriving DecidableEq, Repr

/-- `Properties` of a scrollbar within a scrollable. -/
structure Properties where
  width : F32
  margin : F32
  scroller_width : F32
  alignment : Alignment
deriving DecidableEq, Repr

/-- `Properties::default()`. -/
def Properties.default : Properties :=
  { width := .num 10, margin := .num 0, scroller_width := .num 10,
    alignment := .Start }

/-- The `Direction` of a scrollable. -/
inductive Direction where
  | Vertical (properties : Properties)
  | Horizontal (properties : Properties)
  | Both (vertical horizontal : Properties)
deriving DecidableEq, Repr

/-- `Direction::horizontal`: the properties of the horizontal scrollbar, if
any. -/
def Direction.horizontal : Direction → Option Properties
  | .Horizontal properties => some properties
  | .Both _ horizontal => some horizontal
  | .Vertical _ => none

/-- `Direction::vertical`: the properties of the vertical scrollbar, if any. -/
def Direction.vertical : Direction → Option Properties
  | .Vertical properties => some properties
  | .Both vertical _ => some vertical
  | .Horizontal _ => none

/-- The 1-D scroll `Offset`: an absolute pixel value or a relative fraction. -/
inductive Offset where
  | Absolute (value : F32)
  | Relative (fraction : F32)
deriving DecidableEq, Repr

/-- `Offset::absolute`: converts the stored offset to an absolute pixel value
given the viewport and content extents. -/
def Offset.absolute : Offset → F32 → F32 → F32
  | .Absolute a, viewport, content =>
      F32.min a (F32.max (F32.sub content viewport) (.num 0))
  | .Relative percentage, viewport, content =>
      F32.max (F32.mul (F32.sub content viewport) percentage) (.num 0)

/-- `Offset::translation`: the translation applied when drawing/hit-testing,
obtained from the absolute value by applying the axis alignment. -/
def Offset.translation (o : Offset) (viewport content : F32)
    (alignment : Alignment) : F32 :=
  let offset := o.absolute viewport content
  match alignment with
  | .Start => offset
  | .End =>
      F32.max (F32.sub (F32.max (F32.sub content viewport) (.num 0)) offset)
        (.num 0)

/-- `AbsoluteOffset`: a pair of absolute pixel offsets. -/
structure AbsoluteOffset where
  x : F32
  y : F32
deriving DecidableEq, Repr

/-- `RelativeOffset`: a pair of relative offsets. -/
structure RelativeOffset where
  x : F32
  y : F32
deriving DecidableEq, Repr

/-- The current `Viewport` of a scrollable. -/
structure Viewport where
  offset_x : Offset
  offset_y : Offset
  bounds : Rectangle
  content_bounds : Rectangle
deriving DecidableEq, Repr

/-- `Viewport::absolute_offset`. -/
def Viewport.absolute_offset (v : Viewport) : AbsoluteOffset :=
  { x := v.offset_x.absolute v.bounds.width v.content_bounds.width,
    y := v.offset_y.absolute v.bounds.height v.content_bounds.height }

/-- `Viewport::absolute_offset_reversed`. -/
def Viewport.absolute_offset_reversed (v : Viewport) : AbsoluteOffset :=
  let a := v.absolute_offset
  { x := F32.sub (F32.max (F32.sub v.content_bounds.width v.bounds.width) (.num 0)) a.x,
    y := F32.sub (F32.max (F32.sub v.content_bounds.height v.bounds.height) (.num 0)) a.y }

/-- `Viewport::relative_offset`: the absolute offset divided by the scrollable
range `content - viewport` on each axis. -/
def Viewport.relative_offset (v : Viewport) : RelativeOffset :=
  let a := v.absolute_offset
  { x := F32.div a.x (F32.sub v.content_bounds.width v.bounds.width),
    y := F32.div a.y (F32.sub v.content_bounds.height v.bounds.height) }

/-- The persistent `State` of a scrollable. -/
structure State where
  scroll_area_touched_at : Option Point
  offset_y : Offset
  y_scroller_grabbed_at : Option F32
  offset_x : Offset
  x_scroller_grabbed_at : Option F32
  keyboard_modifiers : Modifiers
  last_notified : Option Viewport
deriving DecidableEq, Repr

/-- `State::default()`: both offsets absolute zero, nothing grabbed. -/
def State.default : State :=
  { scroll_area_touched_at := none,
    offset_y := .Absolute (.num 0),
    y_scroller_grabbed_at := none,
    offset_x := .Absolute (.num 0),
    x_scroller_grabbed_at := none,
    keyboard_modifiers := Modifiers.default,
    last_notified := none }

/-- The alignment adjustment applied to a scroll delta inside `State::scroll`
(the local closure `align`). -/
def alignDelta (alignment : Alignment) (delta : F32) : F32 :=
  match alignment with
  | .Start => delta
  | .End => delta.neg

/-- `State::scroll`: apply a scrolling delta, per axis, only when the content
overflows the bounds on that axis; the result on a mutated axis is stored as
an `Absolute` offset clamped to the valid range. -/
def State.scroll (s : State) (delta : Vector) (direction : Direction)
    (bounds content_bounds : Rectangle) : State :=
  let horizontal_alignment :=
    ((direction.horizontal).map Properties.alignment).getD .Start
  let vertical_alignment :=
    ((direction.vertical).map Properties.alignment).getD .Start
  let delta : Vector :=
    ⟨alignDelta horizontal_alignment delta.x,
     alignDelta vertical_alignment delta.y⟩
  let s :=
    if F32.lt bounds.height content_bounds.height then
      { s with offset_y := .Absolute (F32.clamp
          (F32.sub (s.offset_y.absolute bounds.height content_bounds.height)
            delta.y)
          (.num 0) (F32.sub content_bounds.height bounds.height)) }
    else s
  if F32.lt bounds.width content_bounds.width then
    { s with offset_x := .Absolute (F32.clamp
        (F32.sub (s.offset_x.absolute bounds.width content_bounds.width)
          delta.x)
        (.num 0) (F32.sub content_bounds.width bounds.width)) }
  else s

/-- `State::unsnap`: convert both stored offsets to their `Absolute` form. -/
def State.unsnap (s : State) (bounds content_bounds : Rectangle) : State :=
  { s with
    offset_x := .Absolute
      (s.offset_x.absolute bounds.width content_bounds.width),
    offset_y := .Absolute
      (s.offset_y.absolute bounds.height content_bounds.height) }

/-- `State::scroll_y_to`: jump to a percentage along the y axis; stores a
clamped `Relative` offset and immediately unsnaps. -/
def State.scroll_y_to (s : State) (percentage : F32)
    (bounds content_bounds : Rectangle) : State :=
  let s := { s with
    offset_y := .Relative (F32.clamp percentage (.num 0) (.num 1)) }
  s.unsnap bounds content_bounds

/-- `State::scroll_x_to`: jump to a percentage along the x axis; stores a
clamped `Relative` offset and immediately unsnaps. -/
def State.scroll_x_to (s : State) (percentage : F32)
    (bounds content_bounds : Rectangle) : State :=
  let s := { s with
    offset_x := .Relative (F32.clamp percentage (.num 0) (.num 1)) }
  s.unsnap bounds content_bounds

/-- `State::snap_to`: store clamped `Relative` offsets on both axes. -/
def State.snap_to (s : State) (offset : RelativeOffset) : State :=
  { s with
    offset_x := .Relative (F32.clamp offset.x (.num 0) (.num 1)),
    offset_y := .Relative (F32.clamp offset.y (.num 0) (.num 1)) }

/-- `State::scroll_to`: store `Absolute` offsets on both axes, floored at 0. -/
def State.scroll_to (s : State) (offset : AbsoluteOffset) : State :=
  { s with
    offset_x := .Absolute (F32.max offset.x (.num 0)),
    offset_y := .Absolute (F32.max offset.y (.num 0)) }

/-- `State::translation`: the scrolling translation as a vector, zero on axes
the direction does not cover. -/
def State.translation (s : State) (direction : Direction)
    (bounds content_bounds : Rectangle) : Vector :=
  ⟨match direction.horizontal with
    | some horizontal =>
        s.offset_x.translation bounds.width content_bounds.width
          horizontal.alignment
    | none => .num 0,
   match direction.vertical with
    | some vertical =>
        s.offset_y.translation bounds.height content_bounds.height
          vertical.alignment
    | none => .num 0⟩

/-- `State::scrollers_grabbed`. -/
def State.scrollers_grabbed (s : State) : Bool :=
  s.x_scroller_grabbed_at.isSome || s.y_scroller_grabbed_at.isSome

/-- The handle of a scrollbar (`internals::Scroller`). -/
structure internals.Scroller where
  bounds : Rectangle
deriving DecidableEq, Repr

/-- One scrollbar's geometry (`internals::Scrollbar`). -/
structure internals.Scrollbar where
  total_bounds : Rectangle
  bounds : Rectangle
  scroller : internals.Scroller
  alignment : Alignment
deriving DecidableEq, Repr

/-- `internals::Scrollbar::is_mouse_over`. -/
def internals.Scrollbar.is_mouse_over (sb : internals.Scrollbar)
    (cursor_position : Point) : Bool :=
  sb.total_bounds.contains cursor_position

/-- `internals::Scrollbar::scroll_percentage_y`. -/
def internals.Scrollbar.scroll_percentage_y (sb : internals.Scrollbar)
    (grabbed_at : F32) (cursor_position : Point) : F32 :=
  let percentage :=
    F32.div
      (F32.sub (F32.sub cursor_position.y sb.bounds.y)
        (F32.mul sb.scroller.bounds.height grabbed_at))
      (F32.sub sb.bounds.height sb.scroller.bounds.height)
  match sb.alignment with
  | .Start => percentage
  | .End => F32.sub (.num 1) percentage

/-- `internals::Scrollbar::scroll_percentage_x`. -/
def internals.Scrollbar.scroll_percentage_x (sb : internals.Scrollbar)
    (grabbed_at : F32) (cursor_position : Point) : F32 :=
  let percentage :=
    F32.div
      (F32.sub (F32.sub cursor_position.x sb.bounds.x)
        (F32.mul sb.scroller.bounds.width grabbed_at))
      (F32.sub sb.bounds.width sb.scroller.bounds.width)
  match sb.alignment with
  | .Start => percentage
  | .End => F32.sub (.num 1) percentage

/-- State of both scrollbars (`Scrollbars`). -/
structure Scrollbars where
  y : Option internals.Scrollbar
  x : Option internals.Scrollbar
deriving DecidableEq, Repr

/-- `Scrollbars::new`: creates the y and/or x scrollbar geometry when the
content overflows the scrollable bounds on the configured axes. -/
def Scrollbars.new (state : State) (direction : Direction)
    (bounds content_bounds : Rectangle) : Scrollbars :=
  let translation := state.translation direction bounds content_bounds
  let show_scrollbar_x :=
    (direction.horizontal).filter
      (fun _ => F32.lt bounds.width content_bounds.width)
  let show_scrollbar_y :=
    (direction.vertical).filter
      (fun _ => F32.lt bounds.height content_bounds.height)
  let y_scrollbar : Option internals.Scrollbar :=
    match show_scrollbar_y with
    | some vertical =>
      let width := vertical.width
      let margin := vertical.margin
      let scroller_width := vertical.scroller_width
      let x_scrollbar_height :=
        match show_scrollbar_x with
        | some h => F32.add (F32.max h.width h.scroller_width) h.margin
        | none => .num 0
      let total_scrollbar_width :=
        F32.add (F32.max width scroller_width) (F32.mul (.num 2) margin)
      let total_scrollbar_bounds : Rectangle :=
        { x := F32.sub (F32.add bounds.x bounds.width) total_scrollbar_width,
          y := bounds.y,
          width := total_scrollbar_width,
          height := F32.max (F32.sub bounds.height x_scrollbar_height) (.num 0) }
      let scrollbar_bounds : Rectangle :=
        { x := F32.sub (F32.sub (F32.add bounds.x bounds.width)
                 (F32.div total_scrollbar_width (.num 2)))
               (F32.div width (.num 2)),
          y := bounds.y,
          width := width,
          height := F32.max (F32.sub bounds.height x_scrollbar_height) (.num 0) }
      let scale := F32.div bounds.height content_bounds.height
      let scroller_height :=
        F32.max (F32.mul scrollbar_bounds.height scale) (.num 2)
      let scroller_offset :=
        F32.div (F32.mul (F32.mul translation.y scale) scrollbar_bounds.height)
          bounds.height
      let scroller_bounds : Rectangle :=
        { x := F32.sub (F32.sub (F32.add bounds.x bounds.width)
                 (F32.div total_scrollbar_width (.num 2)))
               (F32.div scroller_width (.num 2)),
          y := F32.max (F32.add scrollbar_bounds.y scroller_offset) (.num 0),
          width := scroller_width,
          height := scroller_height }
      some { total_bounds := total_scrollbar_bounds,
             bounds := scrollbar_bounds,
             scroller := { bounds := scroller_bounds },
             alignment := vertical.alignment }
    | none => none
  let x_scrollbar : Option internals.Scrollbar :=
    match show_scrollbar_x with
    | some horizontal =>
      let width := horizontal.width
      let margin := horizontal.margin
      let scroller_width := horizontal.scroller_width
      let scrollbar_y_width :=
        match y_scrollbar with
        | some scrollbar => scrollbar.total_bounds.width
        | none => .num 0
      let total_scrollbar_height :=
        F32.add (F32.max width scroller_width) (F32.mul (.num 2) margin)
      let total_scrollbar_bounds : Rectangle :=
        { x := bounds.x,
          y := F32.sub (F32.add bounds.y bounds.height) total_scrollbar_height,
          width := F32.max (F32.sub bounds.width scrollbar_y_width) (.num 0),
          height := total_scrollbar_height }
      let scrollbar_bounds : Rectangle :=
        { x := bounds.x,
          y := F32.sub (F32.sub (F32.add bounds.y bounds.height)
                 (F32.div total_scrollbar_height (.num 2)))
               (F32.div width (.num 2)),
          width := F32.max (F32.sub bounds.width scrollbar_y_width) (.num 0),
          height := width }
      let scale := F32.div bounds.width content_bounds.width
      let scroller_length :=
        F32.max (F32.mul scrollbar_bounds.width scale) (.num 2)
      let scroller_offset :=
        F32.div (F32.mul (F32.mul translation.x scale) scrollbar_bounds.width)
          bounds.width
      let scroller_bounds : Rectangle :=
        { x := F32.max (F32.add scrollbar_bounds.x scroller_offset) (.num 0),
          y := F32.sub (F32.sub (F32.add bounds.y bounds.height)
                 (F32.div total_scrollbar_height (.num 2)))
               (F32.div scroller_width (.num 2)),
          width := scroller_length,
          height := scroller_width }
      some { total_bounds := total_scrollbar_bounds,
             bounds := scrollbar_bounds,
             scroller := { bounds := scroller_bounds },
             alignment := horizontal.alignment }
    | none => none
  { y := y_scrollbar, x := x_scrollbar }

/-- `Scrollbars::is_mouse_over`: whether the cursor is over the y and the x
scrollbar, respectively. -/
def Scrollbars.is_mouse_over (sb : Scrollbars) (cursor : Cursor) :
    Bool × Bool :=
  match cursor.position with
  | some cursor_position =>
      ((sb.y.map (fun scrollbar => scrollbar.is_mouse_over cursor_position)).getD false,
       (sb.x.map (fun scrollbar => scrollbar.is_mouse_over cursor_position)).getD false)
  | none => (false, false)

/-- `Scrollbars::grab_y_scroller`: the grab-anchor fraction for a press on the
vertical scrollbar, `0.5` when pressing the track outside the scroller. -/
def Scrollbars.grab_y_scroller (sb : Scrollbars) (cursor_position : Point) :
    Option F32 :=
  sb.y.bind (fun scrollbar =>
    if scrollbar.total_bounds.contains cursor_position then
      some (if scrollbar.scroller.bounds.contains cursor_position then
        F32.div (F32.sub cursor_position.y scrollbar.scroller.bounds.y)
          scrollbar.scroller.bounds.height
      else .num (1 / 2))
    else none)

/-- `Scrollbars::grab_x_scroller`. -/
def Scrollbars.grab_x_scroller (sb : Scrollbars) (cursor_position : Point) :
    Option F32 :=
  sb.x.bind (fun scrollbar =>
    if scrollbar.total_bounds.contains cursor_position then
      some (if scrollbar.scroller.bounds.contains cursor_position then
        F32.div (F32.sub cursor_position.x scrollbar.scroller.bounds.x)
          scrollbar.scroller.bounds.width
      else .num (1 / 2))
    else none)

/-- `Scrollbars::active`. -/
def Scrollbars.active (sb : Scrollbars) : Bool :=
  sb.y.isSome || sb.x.isSome

/-- The tolerance comparison used by `notify_on_scroll` (its local closure
`unchanged`): within `f32::EPSILON`, or both NaN. -/
def unchanged (a b : F32) : Bool :=
  F32.le (F32.abs (F32.sub a b)) F32.EPSILON || (a.isNan && b.isNan)

/-- `notify_on_scroll`: publish the new `Viewport` to the shell unless the
callback is absent, the content fits entirely inside the bounds, or the
offsets are unchanged (within tolerance) since the last notification.
The published viewport, if any, is returned alongside the updated state. -/
def notify_on_scroll (state : State) (has_on_scroll : Bool)
    (bounds content_bounds : Rectangle) : State × Option Viewport :=
  if has_on_scroll then
    if F32.le content_bounds.width bounds.width
        && F32.le content_bounds.height bounds.height then
      (state, none)
    else
      let viewport : Viewport :=
        { offset_x := state.offset_x, offset_y := state.offset_y,
          bounds := bounds, content_bounds := content_bounds }
      let publish :=
        match state.last_notified with
        | some last_notified =>
          let last_relative_offset := last_notified.relative_offset
          let current_relative_offset := viewport.relative_offset
          let last_absolute_offset := last_notified.absolute_offset
          let current_absolute_offset := viewport.absolute_offset
          !(unchanged last_relative_offset.x current_relative_offset.x
            && unchanged last_relative_offset.y current_relative_offset.y
            && unchanged last_absolute_offset.x current_absolute_offset.x
            && unchanged last_absolute_offset.y current_absolute_offset.y)
        | none => true
      if publish then
        ({ state with last_notified := some viewport }, some viewport)
      else
        (state, none)
  else
    (state, none)

/-- Modelled from the spec: the event/message dispatch shell delivers typed
input events; the scroll wheel delta is in lines or pixels. -/
inductive ScrollDelta where
  | Lines (x y : F32)
  | Pixels (x y : F32)
deriving DecidableEq, Repr

/-- Modelled from the spec: mouse buttons; the scrollable only distinguishes
the left button. -/
inductive MouseButton where
  | Left
  | Right
  | Middle
deriving DecidableEq, Repr

/-- Modelled from the spec: the mouse events the scrollable matches on. -/
inductive MouseEvent where
  | WheelScrolled (delta : ScrollDelta)
  | ButtonPressed (button : MouseButton)
  | ButtonReleased (button : MouseButton)
  | CursorMoved (position : Point)
deriving DecidableEq, Repr

/-- Modelled from the spec: the touch events the scrollable matches on. -/
inductive TouchEvent where
  | FingerPressed
  | FingerMoved
  | FingerLifted
  | FingerLost
deriving DecidableEq, Repr

/-- Modelled from the spec: keyboard events; the scrollable only matches
modifier changes. -/
inductive KeyboardEvent where
  | ModifiersChanged (modifiers : Modifiers)
  | Other
deriving DecidableEq, Repr

/-- Modelled from the spec: an input `Event` delivered by the host shell. -/
inductive Event where
  | Mouse (e : MouseEvent)
  | Touch (e : TouchEvent)
  | Keyboard (e : KeyboardEvent)
deriving DecidableEq, Repr

/-- `event::Status`: whether a widget captured the event. -/
inductive EventStatus where
  | Ignored
  | Captured
deriving DecidableEq, Repr

/-- The outcome of one `on_event` call: the updated persistent state, the
returned status, and the viewports published to the shell (in order). -/
structure OnEventResult where
  state : State
  status : EventStatus
  published : List Viewport
deriving DecidableEq, Repr

/-- The wheel/touch `match event` block of `Scrollable::on_event`.
`Except.error` models an early `return` from the whole function. -/
def wheel_touch_stage (state : State) (event : Event) (cursor : Cursor)
    (cursor_over_scrollable : Option Point)
    (mouse_over_y_scrollbar mouse_over_x_scrollbar : Bool)
    (direction : Direction) (has_on_scroll : Bool)
    (bounds content_bounds : Rectangle) :
    Except OnEventResult (State × EventStatus × List Viewport) :=
  match event with
  | .Mouse (.WheelScrolled delta) =>
    if cursor_over_scrollable.isNone then
      .error ⟨state, .Ignored, []⟩
    else
      let d : Vector :=
        match delta with
        | .Lines x y =>
          let movement : Vector :=
            if state.keyboard_modifiers.shift then ⟨y, x⟩ else ⟨x, y⟩
          ⟨F32.mul movement.x (.num 60), F32.mul movement.y (.num 60)⟩
        | .Pixels x y => ⟨x, y⟩
      let state := state.scroll d direction bounds content_bounds
      let r := notify_on_scroll state has_on_scroll bounds content_bounds
      .ok (r.1, .Captured, r.2.toList)
  | .Touch te =>
    if state.scroll_area_touched_at.isSome
        || (!mouse_over_y_scrollbar && !mouse_over_x_scrollbar) then
      match te with
      | .FingerPressed =>
        match cursor.position with
        | none => .error ⟨state, .Ignored, []⟩
        | some cursor_position =>
          .ok ({ state with scroll_area_touched_at := some cursor_position },
            .Captured, [])
      | .FingerMoved =>
        match state.scroll_area_touched_at with
        | some scroll_box_touched_at =>
          match cursor.position with
          | none => .error ⟨state, .Ignored, []⟩
          | some cursor_position =>
            let d : Vector :=
              ⟨F32.sub cursor_position.x scroll_box_touched_at.x,
               F32.sub cursor_position.y scroll_box_touched_at.y⟩
            let state := state.scroll d direction bounds content_bounds
            let state :=
              { state with scroll_area_touched_at := some cursor_position }
            let r := notify_on_scroll state has_on_scroll bounds content_bounds
            .ok (r.1, .Captured, r.2.toList)
        | none => .ok (state, .Captured, [])
      | .FingerLifted =>
        .ok ({ state with scroll_area_touched_at := none }, .Captured, [])
      | .FingerLost =>
        .ok ({ state with scroll_area_touched_at := none }, .Captured, [])
    else
      .ok (state, .Ignored, [])
  | _ => .ok (state, .Ignored, [])

/-- The vertical-scrollbar section of `Scrollable::on_event` (grab release,
drag repositioning, and track press). -/
def y_scrollbar_stage (scrollbars : Scrollbars) (event : Event)
    (cursor : Cursor) (mouse_over_y_scrollbar : Bool) (has_on_scroll : Bool)
    (bounds content_bounds : Rectangle)
    (state : State) (status : EventStatus) (pubs : List Viewport) :
    Except OnEventResult (State × EventStatus × List Viewport) :=
  match state.y_scroller_grabbed_at with
  | some scroller_grabbed_at =>
    match event with
    | .Mouse (.ButtonReleased .Left) | .Touch .FingerLifted
    | .Touch .FingerLost =>
      .ok ({ state with y_scroller_grabbed_at := none }, .Captured, pubs)
    | .Mouse (.CursorMoved _) | .Touch .FingerMoved =>
      match scrollbars.y with
      | some scrollbar =>
        match cursor.position with
        | none => .error ⟨state, .Ignored, pubs⟩
        | some cursor_position =>
          let state := state.scroll_y_to
            (scrollbar.scroll_percentage_y scroller_grabbed_at cursor_position)
            bounds content_bounds
          let r := notify_on_scroll state has_on_scroll bounds content_bounds
          .ok (r.1, .Captured, pubs ++ r.2.toList)
      | none => .ok (state, status, pubs)
    | _ => .ok (state, status, pubs)
  | none =>
    if mouse_over_y_scrollbar then
      match event with
      | .Mouse (.ButtonPressed .Left) | .Touch .FingerPressed =>
        match cursor.position with
        | none => .error ⟨state, .Ignored, pubs⟩
        | some cursor_position =>
          match scrollbars.grab_y_scroller cursor_position, scrollbars.y with
          | some scroller_grabbed_at, some scrollbar =>
            let state := state.scroll_y_to
              (scrollbar.scroll_percentage_y scroller_grabbed_at
                cursor_position)
              bounds content_bounds
            let state :=
              { state with y_scroller_grabbed_at := some scroller_grabbed_at }
            let r := notify_on_scroll state has_on_scroll bounds content_bounds
            .ok (r.1, .Captured, pubs ++ r.2.toList)
          | _, _ => .ok (state, .Captured, pubs)
      | _ => .ok (state, status, pubs)
    else
      .ok (state, status, pubs)

/-- The horizontal-scrollbar section of `Scrollable::on_event`. Unlike the
vertical section, a drag move captures even when the x scrollbar geometry is
absent, and a track press captures only when the grab succeeds (the source is
asymmetric here). -/
def x_scrollbar_stage (scrollbars : Scrollbars) (event : Event)
    (cursor : Cursor) (mouse_over_x_scrollbar : Bool) (has_on_scroll : Bool)
    (bounds content_bounds : Rectangle)
    (state : State) (status : EventStatus) (pubs : List Viewport) :
    Except OnEventResult (State × EventStatus × List Viewport) :=
  match state.x_scroller_grabbed_at with
  | some scroller_grabbed_at =>
    match event with
    | .Mouse (.ButtonReleased .Left) | .Touch .FingerLifted
    | .Touch .FingerLost =>
      .ok ({ state with x_scroller_grabbed_at := none }, .Captured, pubs)
    | .Mouse (.CursorMoved _) | .Touch .FingerMoved =>
      match cursor.position with
      | none => .error ⟨state, .Ignored, pubs⟩
      | some cursor_position =>
        match scrollbars.x with
        | some scrollbar =>
          let state := state.scroll_x_to
            (scrollbar.scroll_percentage_x scroller_grabbed_at cursor_position)
            bounds content_bounds
          let r := notify_on_scroll state has_on_scroll bounds content_bounds
          .ok (r.1, .Captured, pubs ++ r.2.toList)
        | none => .ok (state, .Captured, pubs)
    | _ => .ok (state, status, pubs)
  | none =>
    if mouse_over_x_scrollbar then
      match event with
      | .Mouse (.ButtonPressed .Left) | .Touch .FingerPressed =>
        match cursor.position with
        | none => .error ⟨state, .Ignored, pubs⟩
        | some cursor_position =>
          match scrollbars.grab_x_scroller cursor_position, scrollbars.x with
          | some scroller_grabbed_at, some scrollbar =>
            let state := state.scroll_x_to
              (scrollbar.scroll_percentage_x scroller_grabbed_at
                cursor_position)
              bounds content_bounds
            let state :=
              { state with x_scroller_grabbed_at := some scroller_grabbed_at }
            let r := notify_on_scroll state has_on_scroll bounds content_bounds
            .ok (r.1, .Captured, pubs ++ r.2.toList)
          | _, _ => .ok (state, status, pubs)
      | _ => .ok (state, status, pubs)
    else
      .ok (state, status, pubs)

/-- `Scrollable::on_event`. The child subtree is an arbitrary external widget;
its response to the forwarded event is the `child_status` parameter. After the
child-capture check and the unconditional modifier tracking, the wheel/touch
block and the two scrollbar sections run in sequence, each able to return
early. -/
def on_event (child_status : EventStatus) (state : State) (event : Event)
    (cursor : Cursor) (direction : Direction) (has_on_scroll : Bool)
    (bounds content_bounds : Rectangle) : OnEventResult :=
  let cursor_over_scrollable := cursor.position_over bounds
  let scrollbars := Scrollbars.new state direction bounds content_bounds
  let mouse_over := scrollbars.is_mouse_over cursor
  let mouse_over_y_scrollbar := mouse_over.1
  let mouse_over_x_scrollbar := mouse_over.2
  if child_status = .Captured then
    ⟨state, .Captured, []⟩
  else
    match event with
    | .Keyboard (.ModifiersChanged modifiers) =>
      ⟨{ state with keyboard_modifiers := modifiers }, .Ignored, []⟩
    | _ =>
      match wheel_touch_stage state event cursor cursor_over_scrollable
          mouse_over_y_scrollbar mouse_over_x_scrollbar direction
          has_on_scroll bounds content_bounds with
      | .error r => r
      | .ok (s1, st1, p1) =>
        match y_scrollbar_stage scrollbars event cursor mouse_over_y_scrollbar
            has_on_scroll bounds content_bounds s1 st1 p1 with
        | .error r => r
        | .ok (s2, st2, p2) =>
          match x_scrollbar_stage scrollbars event cursor
              mouse_over_x_scrollbar has_on_scroll bounds content_bounds
              s2 st2 p2 with
          | .error r => r
          | .ok (s3, st3, p3) => ⟨s3, st3, p3⟩

/-!
## Spec-side predicates and shared concrete inputs
-/

/-- Whether an offset is stored in the `Relative` representation. -/
def Offset.isRelative : Offset → Bool
  | .Relative _ => true
  | .Absolute _ => false

/-- The spec's at-rest invariant on a stored offset: an `Absolute` value is a
nonnegative finite number, a `Relative` fraction is a finite number in
`[0, 1]`. -/
def Offset.at_rest : Offset → Bool
  | .Absolute (.num q) => decide (0 ≤ q)
  | .Absolute .posInf => false
  | .Absolute .negInf => false
  | .Absolute .nan => false
  | .Relative (.num q) => decide (0 ≤ q ∧ q ≤ 1)
  | .Relative .posInf => false
  | .Relative .negInf => false
  | .Relative .nan => false

/-- The weaker invariant needed for `unsnap` idempotence: only `Relative`
fractions are constrained to finite values in `[0, 1]`. -/
def Offset.fraction_in_unit : Offset → Bool
  | .Relative (.num q) => decide (0 ≤ q ∧ q ≤ 1)
  | .Relative .posInf => false
  | .Relative .negInf => false
  | .Relative .nan => false
  | .Absolute _ => true

/-- 100×100 bounds at the origin. -/
def bounds100 : Rectangle := ⟨.num 0, .num 0, .num 100, .num 100⟩

/-- 100×300 content: overflows the 100×100 bounds vertically only. -/
def contentTall : Rectangle := ⟨.num 0, .num 0, .num 100, .num 300⟩

/-- 50×50 content: fits inside the 100×100 bounds on both axes. -/
def contentSmall : Rectangle := ⟨.num 0, .num 0, .num 50, .num 50⟩

/-- 300×50 content: overflows the 100×100 bounds horizontally only. -/
def contentWide : Rectangle := ⟨.num 0, .num 0, .num 300, .num 50⟩

/-- 200×100 content: overflows the 100×100 bounds horizontally only. -/
def contentWide200 : Rectangle := ⟨.num 0, .num 0, .num 200, .num 100⟩

/-!
## C1 — range of `Offset::absolute`
-/

/-- C1 counterexample: at viewport extent `100 ≥ 0` and content extent
`50 ≥ 0` (so content ≤ viewport and the claimed range is `[0, 0]`), the stored
offset `Absolute(-1)` makes `Offset::absolute` return `-1`: outside the range
and not `0`, because the `Absolute` arm only clamps from above. -/
theorem offset_absolute_escapes_range :
    Offset.absolute (.Absolute (.num (-1))) (.num 100) (.num 50) =
        .num (-1) ∧
      F32.le (.num 0)
        (Offset.absolute (.Absolute (.num (-1))) (.num 100) (.num 50)) =
        false := by
  constructor
  · simp only [Offset.absolute, F32.sub_num, F32.max_num, F32.min_num]
    norm_num [max_def, min_def]
  · simp only [Offset.absolute, F32.sub_num, F32.max_num, F32.min_num,
      F32.le_num]
    norm_num [max_def, min_def]

/-- C1 (amended): for every stored offset satisfying the at-rest invariant
(`Absolute` nonnegative, `Relative` fraction in `[0, 1]`) and all finite
extents `viewport ≥ 0`, `content ≥ 0`, `Offset::absolute` returns a value in
`[0, max(content - viewport, 0)]`, and returns `0` whenever
`content ≤ viewport`. -/
theorem offset_absolute_within_range (o : Offset) (v c : ℚ)
    (_hv : 0 ≤ v) (_hc : 0 ≤ c) (h : o.at_rest = true) :
    (F32.le (.num 0) (o.absolute (.num v) (.num c)) = true ∧
      F32.le (o.absolute (.num v) (.num c))
        (F32.max (F32.sub (.num c) (.num v)) (.num 0)) = true) ∧
    (c ≤ v → o.absolute (.num v) (.num c) = .num 0) := by
  cases o with
  | Absolute a =>
    cases a with
    | num q =>
      simp only [Offset.at_rest, decide_eq_true_eq] at h
      refine ⟨⟨?_, ?_⟩, ?_⟩
      · simp only [Offset.absolute, F32.sub_num, F32.max_num, F32.min_num,
          F32.le_num, decide_eq_true_eq]
        exact le_min h (le_max_right _ _)
      · simp only [Offset.absolute, F32.sub_num, F32.max_num, F32.min_num,
          F32.le_num, decide_eq_true_eq]
        exact min_le_right _ _
      · intro hcv
        simp only [Offset.absolute, F32.sub_num, F32.max_num, F32.min_num]
        rw [max_eq_right (by linarith), min_eq_right h]
    | posInf => simp [Offset.at_rest] at h
    | negInf => simp [Offset.at_rest] at h
    | nan => simp [Offset.at_rest] at h
  | Relative p =>
    cases p with
    | num q =>
      simp only [Offset.at_rest, decide_eq_true_eq] at h
      obtain ⟨h0, h1⟩ := h
      have key : (c - v) * q ≤ Max.max (c - v) 0 := by
        rcases le_or_lt (c - v) 0 with hd | hd
        · exact le_trans (mul_nonpos_of_nonpos_of_nonneg hd h0)
            (le_max_right _ _)
        · exact le_trans (by nlinarith) (le_max_left _ _)
      refine ⟨⟨?_, ?_⟩, ?_⟩
      · simp only [Offset.absolute, F32.sub_num, F32.max_num, F32.mul_num,
          F32.le_num, decide_eq_true_eq]
        exact le_max_right _ _
      · simp only [Offset.absolute, F32.sub_num, F32.max_num, F32.mul_num,
          F32.le_num, decide_eq_true_eq]
        exact max_le key (le_max_right _ _)
      · intro hcv
        simp only [Offset.absolute, F32.sub_num, F32.max_num, F32.mul_num]
        rw [max_eq_right (mul_nonpos_of_nonpos_of_nonneg (by linarith) h0)]
    | posInf => simp [Offset.at_rest] at h
    | negInf => simp [Offset.at_rest] at h
    | nan => simp [Offset.at_rest] at h

/-- C1 witness: the amended range theorem evaluated at `Absolute(5)`,
viewport `10`, content `100`. -/
theorem offset_absolute_within_range_witness :
    (F32.le (.num 0) (Offset.absolute (.Absolute (.num 5)) (.num 10) (.num 100)) = true ∧
      F32.le (Offset.absolute (.Absolute (.num 5)) (.num 10) (.num 100))
        (F32.max (F32.sub (.num 100) (.num 10)) (.num 0)) = true) ∧
    ((100 : ℚ) ≤ 10 → Offset.absolute (.Absolute (.num 5)) (.num 10) (.num 100) = .num 0) :=
  offset_absolute_within_range (.Absolute (.num 5)) 10 100 (by norm_num)
    (by norm_num) (by norm_num [Offset.at_rest])

/-!
## C2 — NaN in `Viewport::relative_offset`
-/

/-- A viewport whose content (50×50) is strictly smaller than its bounds
(100×100) on both axes, offsets at rest. -/
def viewportSmallContent : Viewport :=
  { offset_x := .Absolute (.num 0), offset_y := .Absolute (.num 0),
    bounds := bounds100, content_bounds := contentSmall }

/-- C2 counterexample: on a viewport whose content extent (50) is strictly
less than the bounds extent (100) on the x axis, `Viewport::relative_offset`
returns the number `0` (the division is `0 / -50`), not NaN, although
content ≤ viewport holds on that axis. -/
theorem relative_offset_not_nan_below_extent :
    F32.le viewportSmallContent.content_bounds.width
        viewportSmallContent.bounds.width = true ∧
      (viewportSmallContent.relative_offset).x = .num 0 ∧
      (viewportSmallContent.relative_offset).x.isNan = false := by
  refine ⟨?_, ?_, ?_⟩
  · simp only [viewportSmallContent, contentSmall, bounds100, F32.le_num,
      decide_eq_true_eq]
    norm_num
  · simp only [viewportSmallContent, contentSmall, bounds100,
      Viewport.relative_offset, Viewport.absolute_offset, Offset.absolute,
      F32.sub_num, F32.max_num, F32.min_num]
    norm_num [max_def, min_def]
    rw [F32.div_num _ _ (by norm_num)]
    norm_num
  · simp only [viewportSmallContent, contentSmall, bounds100,
      Viewport.relative_offset, Viewport.absolute_offset, Offset.absolute,
      F32.sub_num, F32.max_num, F32.min_num]
    norm_num [max_def, min_def]
    rw [F32.div_num _ _ (by norm_num)]
    rfl

/-- The absolute offset is exactly `0` whenever the content and viewport
extents are the same finite number and the stored offset is at rest. -/
theorem absolute_equal_extent (o : Offset) (q : ℚ) (h : o.at_rest = true) :
    o.absolute (.num q) (.num q) = .num 0 := by
  cases o with
  | Absolute a =>
    cases a with
    | num x =>
      simp only [Offset.at_rest, decide_eq_true_eq] at h
      simp only [Offset.absolute, F32.sub_num, F32.max_num, F32.min_num]
      rw [sub_self, max_self, min_eq_right h]
    | posInf => simp [Offset.at_rest] at h
    | negInf => simp [Offset.at_rest] at h
    | nan => simp [Offset.at_rest] at h
  | Relative p =>
    cases p with
    | num x =>
      simp only [Offset.absolute, F32.sub_num, F32.mul_num, F32.max_num]
      rw [sub_self, zero_mul, max_self]
    | posInf => simp [Offset.at_rest] at h
    | negInf => simp [Offset.at_rest] at h
    | nan => simp [Offset.at_rest] at h

/-- C2 (amended): `Viewport::relative_offset` is NaN on an axis exactly in
the zero-range case: when the content extent *equals* the bounds extent
(finite) and the stored offset on that axis is at rest, the computation is
`0 / 0` and the result is NaN; when content is strictly below the bounds the
result is a number (see the counterexample). -/
theorem relative_offset_nan_on_equal_extent (V : Viewport) :
    (∀ q : ℚ, V.bounds.width = .num q → V.content_bounds.width = .num q →
      V.offset_x.at_rest = true → (V.relative_offset).x.isNan = true) ∧
    (∀ q : ℚ, V.bounds.height = .num q → V.content_bounds.height = .num q →
      V.offset_y.at_rest = true → (V.relative_offset).y.isNan = true) := by
  constructor
  · intro q hb hc ho
    simp only [Viewport.relative_offset, Viewport.absolute_offset, hb, hc,
      absolute_equal_extent V.offset_x q ho, F32.sub_num, sub_self]
    simp [F32.div, F32.isNan]
  · intro q hb hc ho
    simp only [Viewport.relative_offset, Viewport.absolute_offset, hb, hc,
      absolute_equal_extent V.offset_y q ho, F32.sub_num, sub_self]
    simp [F32.div, F32.isNan]

/-- A viewport whose content extent equals its bounds extent on both axes. -/
def viewportEqualExtent : Viewport :=
  { offset_x := .Absolute (.num 0), offset_y := .Absolute (.num 0),
    bounds := bounds100,
    content_bounds := ⟨.num 0, .num 0, .num 100, .num 100⟩ }

/-- C2 witness: the amended theorem evaluated on a viewport with equal
100-pixel extents. -/
theorem relative_offset_nan_on_equal_extent_witness :
    (viewportEqualExtent.relative_offset).x.isNan = true :=
  (relative_offset_nan_on_equal_extent viewportEqualExtent).1 100 rfl rfl
    (by norm_num [Offset.at_rest, viewportEqualExtent])

/-!
## C3 — what `scroll_y_to` / `scroll_x_to` leave in the state
-/

/-- C3 counterexample: immediately after
`State::scroll_y_to(0.5, 100×100 bounds, 100×300 content)` from the default
state, the y offset is stored as `Absolute(100)` — not as a `Relative`
offset — because `scroll_y_to` itself calls `unsnap`. -/
theorem scroll_y_to_stores_absolute :
    ((State.default.scroll_y_to (.num (1/2)) bounds100 contentTall).offset_y)
        = .Absolute (.num 100) ∧
      ((State.default.scroll_y_to (.num (1/2)) bounds100
          contentTall).offset_y).isRelative = false := by
  have h : ((State.default.scroll_y_to (.num (1/2)) bounds100
      contentTall).offset_y) = .Absolute (.num 100) := by
    simp only [State.scroll_y_to, State.unsnap, State.default, bounds100,
      contentTall, Offset.absolute]
    rw [F32.clamp_num _ _ _ (by norm_num)]
    norm_num [max_def, min_def]
  exact ⟨h, by rw [h]; rfl⟩

/-- C3 (amended): `scroll_y_to`/`scroll_x_to` store the clamped `Relative`
percentage only transiently: the call unsnaps before returning, so both
stored offsets are `Absolute` afterwards — the jumped axis holds the pixel
value of `Relative(clamp(percentage, 0, 1))` and the other axis holds its own
absolute value. (A `Relative` offset persists only via `snap_to`.) -/
theorem scroll_to_percentage_unsnaps (s : State) (p : F32)
    (bounds content_bounds : Rectangle) :
    ((s.scroll_y_to p bounds content_bounds).offset_y =
        .Absolute ((Offset.Relative (F32.clamp p (.num 0) (.num 1))).absolute
          bounds.height content_bounds.height) ∧
      (s.scroll_y_to p bounds content_bounds).offset_x =
        .Absolute (s.offset_x.absolute bounds.width content_bounds.width)) ∧
    ((s.scroll_x_to p bounds content_bounds).offset_x =
        .Absolute ((Offset.Relative (F32.clamp p (.num 0) (.num 1))).absolute
          bounds.width content_bounds.width) ∧
      (s.scroll_x_to p bounds content_bounds).offset_y =
        .Absolute (s.offset_y.absolute bounds.height content_bounds.height)) :=
  ⟨⟨rfl, rfl⟩, ⟨rfl, rfl⟩⟩

/-!
## C4 — modifier tracking in `on_event`
-/

/-- The shift-only modifier snapshot used by the C4 counterexample. -/
def shiftOnly : Modifiers := ⟨true, false, false, false⟩

/-- C4 counterexample: when the child subtree captures a
`ModifiersChanged` event, `on_event` returns before the modifier-tracking
branch, so the new modifiers are *not* recorded into the persistent state. -/
theorem modifiers_not_recorded_when_child_captures :
    (on_event .Captured State.default (.Keyboard (.ModifiersChanged shiftOnly))
        .Unavailable (Direction.Vertical Properties.default) false bounds100
        contentTall).state.keyboard_modifiers ≠ shiftOnly := by
  intro h
  have : (Modifiers.default).shift = true := by
    rw [show Modifiers.default = shiftOnly from h]
    rfl
  simp [Modifiers.default] at this

/-- C4 (amended): whenever the child subtree does *not* capture the event,
an incoming `ModifiersChanged` event makes `on_event` record the new
modifiers into the persistent state — regardless of the cursor position, the
direction, the bounds and the rest of the state — change nothing else,
publish nothing, and return `Ignored` (modifier tracking never captures). -/
theorem modifiers_recorded_unless_child_captures
    (child_status : EventStatus) (s : State) (m : Modifiers) (cursor : Cursor)
    (direction : Direction) (has_on_scroll : Bool)
    (bounds content_bounds : Rectangle)
    (h : child_status ≠ .Captured) :
    on_event child_status s (.Keyboard (.ModifiersChanged m)) cursor direction
        has_on_scroll bounds content_bounds =
      ⟨{ s with keyboard_modifiers := m }, .Ignored, []⟩ := by
  cases child_status with
  | Ignored => rfl
  | Captured => exact absurd rfl h

/-- C4 witness: the amended theorem at a concrete non-capturing child,
cursor available over the scrollable. -/
theorem modifiers_recorded_unless_child_captures_witness :
    on_event .Ignored State.default (.Keyboard (.ModifiersChanged shiftOnly))
        (.Available ⟨.num 10, .num 10⟩) (Direction.Vertical Properties.default)
        true bounds100 contentTall =
      ⟨{ State.default with keyboard_modifiers := shiftOnly }, .Ignored, []⟩ :=
  modifiers_recorded_unless_child_captures .Ignored State.default shiftOnly
    (.Available ⟨.num 10, .num 10⟩) (Direction.Vertical Properties.default)
    true bounds100 contentTall (by intro h; cases h)

/-!
## C5 — what `State::scroll` stores
-/

/-- A state whose y offset is a snapped `Relative(1/2)`. -/
def stateRelY : State := { State.default with offset_y := .Relative (.num (1/2)) }

/-- C5 counterexample: a `State::scroll` call on a state whose y offset is
`Relative(1/2)`, with content (300×50) that fits vertically inside the
100×100 bounds, leaves the y offset `Relative` — the claim that both stored
offsets are `Absolute` after any `scroll` call is false. -/
theorem scroll_keeps_relative_on_fitting_axis :
    ((stateRelY.scroll ⟨.num 10, .num 10⟩ (Direction.Vertical Properties.default)
        bounds100 contentWide).offset_y).isRelative = true := by
  have h : (stateRelY.scroll ⟨.num 10, .num 10⟩
      (Direction.Vertical Properties.default) bounds100
      contentWide).offset_y = .Relative (.num (1/2)) := by
    simp only [State.scroll, bounds100, contentWide, F32.lt_num]
    norm_num [stateRelY]
  rw [h]
  rfl

/-- C5 (amended): after `State::scroll`, each axis whose content extent
strictly exceeds the bounds extent stores an `Absolute` offset equal to its
previous absolute value minus the alignment-adjusted delta, clamped to
`[0, content - viewport]`; an axis whose content does not strictly overflow
keeps its previous offset, variant included. -/
theorem scroll_stores_clamped_absolute (s : State) (delta : Vector)
    (direction : Direction) (bounds content_bounds : Rectangle) :
    (F32.lt bounds.height content_bounds.height = true →
      (s.scroll delta direction bounds content_bounds).offset_y =
        .Absolute (F32.clamp
          (F32.sub (s.offset_y.absolute bounds.height content_bounds.height)
            (alignDelta
              (((direction.vertical).map Properties.alignment).getD .Start)
              delta.y))
          (.num 0) (F32.sub content_bounds.height bounds.height))) ∧
    (F32.lt bounds.height content_bounds.height = false →
      (s.scroll delta direction bounds content_bounds).offset_y =
        s.offset_y) ∧
    (F32.lt bounds.width content_bounds.width = true →
      (s.scroll delta direction bounds content_bounds).offset_x =
        .Absolute (F32.clamp
          (F32.sub (s.offset_x.absolute bounds.width content_bounds.width)
            (alignDelta
              (((direction.horizontal).map Properties.alignment).getD .Start)
              delta.x))
          (.num 0) (F32.sub content_bounds.width bounds.width))) ∧
    (F32.lt bounds.width content_bounds.width = false →
      (s.scroll delta direction bounds content_bounds).offset_x =
        s.offset_x) := by
  rcases hY : F32.lt bounds.height content_bounds.height <;>
    rcases hX : F32.lt bounds.width content_bounds.width <;>
      simp [State.scroll, hY, hX]

/-- C5 witness: from the default state, a wheel delta of `(-600)` pixels down
on 100×300 content inside 100×100 bounds stores
`Absolute(clamp(0 - (-600), 0, 200)) = Absolute(200)` on the y axis. -/
theorem scroll_stores_clamped_absolute_witness :
    (State.default.scroll ⟨.num 0, .num (-600)⟩
        (Direction.Vertical Properties.default) bounds100
        contentTall).offset_y =
      .Absolute (F32.clamp
        (F32.sub (State.default.offset_y.absolute bounds100.height
          contentTall.height)
          (alignDelta
            ((((Direction.Vertical Properties.default).vertical).map
              Properties.alignment).getD .Start)
            (Vector.mk (.num 0) (.num (-600))).y))
        (.num 0) (F32.sub contentTall.height bounds100.height)) :=
  (scroll_stores_clamped_absolute State.default ⟨.num 0, .num (-600)⟩
    (Direction.Vertical Properties.default) bounds100 contentTall).1
    (by norm_num [bounds100, contentTall])

/-!
## C6 — suppression of scroll-change notifications
-/

/-- C6: with the scroll callback configured, `notify_on_scroll` publishes
nothing when the content fits inside the bounds on both axes; and when a
last-notified viewport exists and the relative and absolute offsets of both
axes are unchanged within `f32::EPSILON` (two NaNs counting as equal), the
notification is suppressed as well — so consecutive offset-affecting events
whose net effect stays within tolerance produce at most one callback. -/
theorem notify_on_scroll_suppressed (s : State)
    (bounds content_bounds : Rectangle) :
    (F32.le content_bounds.width bounds.width = true →
      F32.le content_bounds.height bounds.height = true →
      (notify_on_scroll s true bounds content_bounds).2 = none) ∧
    (∀ last : Viewport, s.last_notified = some last →
      unchanged last.relative_offset.x
        (Viewport.mk s.offset_x s.offset_y bounds
          content_bounds).relative_offset.x = true →
      unchanged last.relative_offset.y
        (Viewport.mk s.offset_x s.offset_y bounds
          content_bounds).relative_offset.y = true →
      unchanged last.absolute_offset.x
        (Viewport.mk s.offset_x s.offset_y bounds
          content_bounds).absolute_offset.x = true →
      unchanged last.absolute_offset.y
        (Viewport.mk s.offset_x s.offset_y bounds
          content_bounds).absolute_offset.y = true →
      (notify_on_scroll s true bounds content_bounds).2 = none) := by
  constructor
  · intro h1 h2
    simp [notify_on_scroll, h1, h2]
  · intro last hl u1 u2 u3 u4
    simp only [notify_on_scroll, if_true]
    split
    · rfl
    · simp only [hl, u1, u2, u3, u4, Bool.and_self, Bool.not_true,
        Bool.false_eq_true, if_false]

/-- C6 witness: the fits-inside case at concrete 50×50 content in 100×100
bounds publishes nothing. -/
theorem notify_on_scroll_suppressed_witness :
    (notify_on_scroll State.default true bounds100 contentSmall).2 = none :=
  (notify_on_scroll_suppressed State.default bounds100 contentSmall).1
    (by norm_num [bounds100, contentSmall])
    (by norm_num [bounds100, contentSmall])

/-!
## C7 — when scrollbar geometry exists
-/

/-- C7: `Scrollbars::new` produces geometry for an axis iff that axis is
configured in the `Direction` and the content extent strictly exceeds the
bounds extent on that axis; when the content fits on both axes,
`Scrollbars::active` is false. -/
theorem scrollbars_present_iff (state : State) (direction : Direction)
    (bounds content_bounds : Rectangle) :
    ((Scrollbars.new state direction bounds content_bounds).y.isSome =
      ((direction.vertical).isSome &&
        F32.lt bounds.height content_bounds.height)) ∧
    ((Scrollbars.new state direction bounds content_bounds).x.isSome =
      ((direction.horizontal).isSome &&
        F32.lt bounds.width content_bounds.width)) ∧
    (F32.le content_bounds.width bounds.width = true →
      F32.le content_bounds.height bounds.height = true →
      (Scrollbars.new state direction bounds content_bounds).active = false) := by
  refine ⟨?_, ?_, ?_⟩
  · cases direction <;>
      rcases hY : F32.lt bounds.height content_bounds.height <;>
        simp [Scrollbars.new, Direction.vertical, Direction.horizontal,
          Option.filter, hY]
  · cases direction <;>
      rcases hY : F32.lt bounds.height content_bounds.height <;>
        rcases hX : F32.lt bounds.width content_bounds.width <;>
          simp [Scrollbars.new, Direction.vertical, Direction.horizontal,
            Option.filter, hY, hX]
  · intro h1 h2
    have hX := F32.lt_false_of_le_true h1
    have hY := F32.lt_false_of_le_true h2
    cases direction <;>
      simp [Scrollbars.new, Scrollbars.active, Direction.vertical,
        Direction.horizontal, Option.filter, hX, hY]

/-- C7 witness: 50×50 content in 100×100 bounds with both axes configured
produces no scrollbar geometry. -/
theorem scrollbars_present_iff_witness :
    (Scrollbars.new State.default
        (Direction.Both Properties.default Properties.default) bounds100
        contentSmall).active = false :=
  (scrollbars_present_iff State.default
    (Direction.Both Properties.default Properties.default) bounds100
    contentSmall).2.2
    (by norm_num [bounds100, contentSmall])
    (by norm_num [bounds100, contentSmall])

/-!
## C8 — alignment flip is a reflection
-/

/-- C8: for a stored offset whose absolute value `a` is a valid finite value
in `[0, m]` where `m` is the finite scrollable range `max(content-viewport,0)`,
the translation under `Alignment::End` is exactly the range minus the
translation under `Alignment::Start`. -/
theorem translation_end_reflects_start (o : Offset) (v c : F32) (a m : ℚ)
    (ha : o.absolute v c = .num a)
    (hm : F32.max (F32.sub c v) (.num 0) = .num m)
    (_h0 : 0 ≤ a) (h1 : a ≤ m) :
    o.translation v c .End =
      F32.sub (F32.max (F32.sub c v) (.num 0)) (o.translation v c .Start) := by
  simp only [Offset.translation, ha, hm, F32.sub_num, F32.max_num]
  congr 1
  exact max_eq_left (by linarith)

/-- C8 witness: `Absolute(50)` with viewport `100`, content `300`
(range `200`): the `End` translation equals `200 - 50`. -/
theorem translation_end_reflects_start_witness :
    (Offset.Absolute (.num 50)).translation (.num 100) (.num 300) .End =
      F32.sub (F32.max (F32.sub (.num 300) (.num 100)) (.num 0))
        ((Offset.Absolute (.num 50)).translation (.num 100) (.num 300) .Start) :=
  translation_end_reflects_start (.Absolute (.num 50)) (.num 100) (.num 300)
    50 200
    (by simp only [Offset.absolute, F32.sub_num, F32.max_num, F32.min_num]
        norm_num [max_def, min_def])
    (by simp only [F32.sub_num, F32.max_num]
        norm_num [max_def])
    (by norm_num) (by norm_num)

/-!
## C9 — idempotence of `unsnap`
-/

/-- A state holding the out-of-range snapped fraction `Relative(2)`. -/
def stateRelTwo : State := { State.default with offset_x := .Relative (.num 2) }

/-- C9 counterexample: from `Relative(2)` with a scrollable range of `100`
pixels, one `unsnap` stores `Absolute(200)` (the `Relative` arm only clamps
from below), but a second `unsnap` clamps that to `Absolute(100)` — so
`unsnap` twice differs from `unsnap` once and the claim, quantified over
every state, is false. -/
theorem unsnap_not_idempotent :
    (stateRelTwo.unsnap bounds100 contentWide200).unsnap bounds100
        contentWide200 ≠
      stateRelTwo.unsnap bounds100 contentWide200 := by
  have h1 : (stateRelTwo.unsnap bounds100 contentWide200).offset_x =
      .Absolute (.num 200) := by
    simp only [State.unsnap, stateRelTwo, State.default, bounds100,
      contentWide200, Offset.absolute, F32.sub_num, F32.mul_num, F32.max_num]
    norm_num [max_def]
  have h2 : ((stateRelTwo.unsnap bounds100 contentWide200).unsnap bounds100
      contentWide200).offset_x = .Absolute (.num 100) := by
    simp only [State.unsnap, stateRelTwo, State.default, bounds100,
      contentWide200, Offset.absolute, F32.sub_num, F32.mul_num, F32.max_num,
      F32.min_num]
    norm_num [max_def, min_def]
  intro h
  rw [h, h1] at h2
  simp only [Offset.Absolute.injEq, F32.num.injEq] at h2
  norm_num at h2

/-- The scrollable range `max(content - viewport, 0)` is never NaN: it is a
nonnegative finite number or `+inf`. -/
theorem max_zero_shape (a : F32) :
    (∃ q : ℚ, 0 ≤ q ∧ F32.max a (.num 0) = .num q) ∨
      F32.max a (.num 0) = .posInf := by
  cases a with
  | num q => exact .inl ⟨Max.max q 0, le_max_right _ _, by simp⟩
  | posInf => exact .inr rfl
  | negInf => exact .inl ⟨0, le_refl 0, rfl⟩
  | nan => exact .inl ⟨0, le_refl 0, rfl⟩

/-- Re-running `Offset::absolute` on the result of a previous conversion is a
fixed point, provided any `Relative` fraction lies in `[0, 1]`. -/
theorem absolute_reclamp (o : Offset) (v c : F32)
    (h : o.fraction_in_unit = true) :
    (Offset.Absolute (o.absolute v c)).absolute v c = o.absolute v c := by
  show F32.min (o.absolute v c) (F32.max (F32.sub c v) (.num 0)) =
    o.absolute v c
  cases o with
  | Absolute x =>
    rcases max_zero_shape (F32.sub c v) with ⟨m, _hm0, hm⟩ | hm
    · simp only [Offset.absolute, hm]
      cases x with
      | num a => simp only [F32.min_num, min_assoc, min_self]
      | posInf => simp [F32.min, F32.isNan, F32.le]
      | negInf => simp [F32.min, F32.isNan, F32.le]
      | nan => simp [F32.min, F32.isNan, F32.le]
    · simp only [Offset.absolute, hm]
      cases x <;> simp [F32.min, F32.isNan, F32.le]
  | Relative p =>
    cases p with
    | num q =>
      have hq : 0 ≤ q ∧ q ≤ 1 := by
        simpa [Offset.fraction_in_unit] using h
      cases hd : F32.sub c v with
      | num d =>
        simp only [Offset.absolute, hd, F32.mul_num, F32.max_num, F32.min_num]
        congr 1
        refine min_eq_left (max_le ?_ (le_max_right _ _))
        rcases le_or_lt d 0 with h1 | h1
        · exact le_trans (mul_nonpos_of_nonpos_of_nonneg h1 hq.1)
            (le_max_right _ _)
        · exact le_trans (by nlinarith [hq.1, hq.2]) (le_max_left _ _)
      | posInf =>
        rcases eq_or_lt_of_le hq.1 with h0 | h0
        · simp [Offset.absolute, hd, F32.mul, F32.max, F32.min, F32.isNan,
            F32.le, ← h0]
        · simp [Offset.absolute, hd, F32.mul, F32.max, F32.min, F32.isNan,
            F32.le, h0, h0.ne']
      | negInf =>
        rcases eq_or_lt_of_le hq.1 with h0 | h0
        · simp [Offset.absolute, hd, F32.mul, F32.max, F32.min, F32.isNan,
            F32.le, ← h0]
        · simp [Offset.absolute, hd, F32.mul, F32.max, F32.min, F32.isNan,
            F32.le, h0, h0.ne']
      | nan =>
        simp [Offset.absolute, hd, F32.mul, F32.max, F32.min, F32.isNan,
          F32.le]
    | posInf => simp [Offset.fraction_in_unit] at h
    | negInf => simp [Offset.fraction_in_unit] at h
    | nan => simp [Offset.fraction_in_unit] at h

/-- C9 (amended): `unsnap` is idempotent on every state whose `Relative`
fractions (if any) are finite values in `[0, 1]` — the invariant every code
path that stores a `Relative` offset maintains by clamping. (For an
out-of-range fraction such as `Relative(2)` a second `unsnap` clamps further;
see the counterexample.) -/
theorem unsnap_idempotent_in_unit (s : State)
    (bounds content_bounds : Rectangle)
    (hx : s.offset_x.fraction_in_unit = true)
    (hy : s.offset_y.fraction_in_unit = true) :
    (s.unsnap bounds content_bounds).unsnap bounds content_bounds =
      s.unsnap bounds content_bounds := by
  simp only [State.unsnap,
    absolute_reclamp s.offset_x bounds.width content_bounds.width hx,
    absolute_reclamp s.offset_y bounds.height content_bounds.height hy]

/-- A snapped state: `Relative(1/2)` on x, `Absolute(7)` on y. -/
def stateRelHalf : State :=
  { State.default with
    offset_x := .Relative (.num (1/2)),
    offset_y := .Absolute (.num 7) }

/-- C9 witness: idempotence at `Relative(1/2)` / `Absolute(7)` offsets with
100×100 bounds and 200×100 content. -/
theorem unsnap_idempotent_in_unit_witness :
    ((stateRelHalf.unsnap bounds100 contentWide200).unsnap bounds100
        contentWide200) =
      stateRelHalf.unsnap bounds100 contentWide200 :=
  unsnap_idempotent_in_unit stateRelHalf bounds100 contentWide200
    (by simp only [stateRelHalf, Offset.fraction_in_unit, decide_eq_true_eq]
        norm_num)
    rfl

/-!
## C10 — axes that fit are untouched by `State::scroll`
-/

/-- C10: `State::scroll` leaves the stored offset of an axis unchanged —
same variant and same value — whenever the content extent is at most the
bounds extent on that axis, and conversely an axis offset only changes when
the content strictly overflows the bounds there. -/
theorem scroll_preserves_fitting_axes (s : State) (delta : Vector)
    (direction : Direction) (bounds content_bounds : Rectangle) :
    (F32.le content_bounds.height bounds.height = true →
      (s.scroll delta direction bounds content_bounds).offset_y =
        s.offset_y) ∧
    (F32.le content_bounds.width bounds.width = true →
      (s.scroll delta direction bounds content_bounds).offset_x =
        s.offset_x) ∧
    ((s.scroll delta direction bounds content_bounds).offset_y ≠ s.offset_y →
      F32.lt bounds.height content_bounds.height = true) ∧
    ((s.scroll delta direction bounds content_bounds).offset_x ≠ s.offset_x →
      F32.lt bounds.width content_bounds.width = true) := by
  refine ⟨?_, ?_, ?_, ?_⟩
  · intro h
    have hY := F32.lt_false_of_le_true h
    rcases hX : F32.lt bounds.width content_bounds.width <;>
      simp [State.scroll, hY, hX]
  · intro h
    have hX := F32.lt_false_of_le_true h
    rcases hY : F32.lt bounds.height content_bounds.height <;>
      simp [State.scroll, hY, hX]
  · intro h
    rcases hY : F32.lt bounds.height content_bounds.height
    · exfalso
      apply h
      rcases hX : F32.lt bounds.width content_bounds.width <;>
        simp [State.scroll, hY, hX]
    · rfl
  · intro h
    rcases hX : F32.lt bounds.width content_bounds.width
    · exfalso
      apply h
      rcases hY : F32.lt bounds.height content_bounds.height <;>
        simp [State.scroll, hY, hX]
    · rfl

/-- C10 witness: scrolling 300×50 content inside 100×100 bounds (fits
vertically) leaves the y offset untouched. -/
theorem scroll_preserves_fitting_axes_witness :
    (State.default.scroll ⟨.num 10, .num 10⟩
        (Direction.Vertical Properties.default) bounds100
        contentWide).offset_y = State.default.offset_y :=
  (scroll_preserves_fitting_axes State.default ⟨.num 10, .num 10⟩
    (Direction.Vertical Properties.default) bounds100 contentWide).1
    (by norm_num [bounds100, contentWide])

end Iced
